import Mathlib

/-!
Verification of the rescale-configuration subsystem of
`src/nequip/model/_scaling.py`.

The embedding models Python strings as lists of characters (`PStr`), so that
the prefix-stripping and underscore-splitting done by `compute_stats` can be
reasoned about by list induction.  Python floats and tensors are modelled
over the rationals; a Python config value is the tagged variant `ConfigVal`.
Fallible code returns `Except ConfigError`; the number of invocations of the
external dataset statistics capability is returned alongside the result, so
that claims about the dataset never being touched are statable.
-/

namespace Scaling

/-- A Python string, modelled as its list of characters. -/
abbrev PStr := List Char

/-- Conversion from a Lean string literal to the `PStr` model. -/
def pstr (x : String) : PStr := x.toList

/-- Python `s.split(sep)` for a one-character separator: splits on every
occurrence of `sep`, keeping empty pieces, and yields `[[]]` on the empty
string. -/
def pySplit (sep : Char) : PStr → List PStr
  | [] => [[]]
  | c :: rest =>
    match pySplit sep rest with
    | [] => [[]]
    | h :: t => if c = sep then [] :: h :: t else (c :: h) :: t

/-- The trailing underscore-delimited token of a string:
Python `name.split("_")[-1]`. -/
def lastTok (t : PStr) : PStr := (pySplit '_' t).getLastD []

/-- Python `name.startswith(tag)`. -/
def pyStartsWith : PStr → PStr → Bool
  | [], _ => true
  | _ :: _, [] => false
  | a :: ps, c :: cs => a == c && pyStartsWith ps cs

/-- The `dataset_` request marker stripped at the top of the
`compute_stats` loop. -/
def dsPfx : PStr := pstr "dataset_"

/-- The `per_species_` granularity marker. -/
def spPfx : PStr := pstr "per_species_"

/-- The `per_atom_` granularity marker. -/
def paPfx : PStr := pstr "per_atom_"

/-- A Python configuration/statistics value as used by `_scaling.py`:
a request string, `None`, a float, a `torch.Tensor` (modelled as a list of
rationals), a Python list of numbers, or any other Python object (`other`),
which the validation loops must reject. -/
inductive ConfigVal where
  | str (t : PStr)
  | vNone
  | num (x : ℚ)
  | tensor (t : List ℚ)
  | pyList (l : List ℚ)
  | other
deriving DecidableEq

/-- `isinstance(v, str)`. -/
def ConfigVal.isStr : ConfigVal → Bool
  | .str _ => true
  | _ => false

/-- `v is None`. -/
def ConfigVal.isNone : ConfigVal → Bool
  | .vNone => true
  | _ => false

/-- `isinstance(v, float)`. -/
def ConfigVal.isNum : ConfigVal → Bool
  | .num _ => true
  | _ => false

/-- `isinstance(v, torch.Tensor)`. -/
def ConfigVal.isTensor : ConfigVal → Bool
  | .tensor _ => true
  | _ => false

/-- `isinstance(v, list)`. -/
def ConfigVal.isPyList : ConfigVal → Bool
  | .pyList _ => true
  | _ => false

/-- The errors raised by `_scaling.py` (all are `ValueError` in the source;
each constructor carries the data interpolated into the corresponding
message): `unsupportedStatKind` is `Cannot handle ... type quantity` from
`compute_stats`; `invalidScaleSource` is `Invalid global scale ...` (the
message interpolates `global_scale`); `degenerateScale` is
`Global energy scaling was very low: ...` (the message interpolates the
offending scale value); `conflictingShift` is
`One can only enable either global shift or per_species shift`; `typeError`
models a Python `TypeError` (or shape-mismatch `RuntimeError`) raised by
`/=` on an unsupported operand pair. -/
inductive ConfigError where
  | unsupportedStatKind (stat : PStr)
  | invalidScaleSource (global_scale : ConfigVal)
  | degenerateScale (value : ℚ)
  | conflictingShift
  | typeError
deriving DecidableEq

deriving instance DecidableEq for Except

/-- The accumulator of the parsing/deduplication loop of `compute_stats`
(lines 15-19 of the source): the deduplicated modes, fields and composite
key strings, the per-request slot index, and the per-request within-slot
tuple index. -/
structure ResolveState where
  stat_modes : List PStr
  stat_fields : List PStr
  stat_strs : List PStr
  ids : List Nat
  tuple_ids : List Nat
deriving DecidableEq

/-- The empty accumulator the `compute_stats` loop starts from. -/
def initState : ResolveState := ⟨[], [], [], [], []⟩

/-- The dict `tuple_id_map = {"mean": 0, "std": 1, "rms": 0}`. -/
def tuple_id_map (stat : PStr) : Nat :=
  if stat = pstr "mean" then 0
  else if stat = pstr "std" then 1
  else 0

/-- Lines 23-36 of `compute_stats`: strip the `dataset_` marker, detect and
strip a `per_species_` or `per_atom_` granularity marker, then split on
underscores; the last token is the statistic kind and the remaining tokens
joined by underscores form the field name.  Returns
`(granularity marker, field, kind)`. -/
def parseRequest (name0 : PStr) : PStr × PStr × PStr :=
  let name1 := if pyStartsWith dsPfx name0 then name0.drop dsPfx.length else name0
  let pp :=
    if pyStartsWith spPfx name1 then (spPfx, name1.drop spPfx.length)
    else if pyStartsWith paPfx name1 then (paPfx, name1.drop paPfx.length)
    else (([] : PStr), name1)
  let parts := pySplit '_' pp.2
  (pp.1, List.intercalate ['_'] parts.dropLast, parts.getLastD [])

/-- One iteration of the `for name in str_names` loop of `compute_stats`
(lines 22-53): parse the request, map the kind to an aggregation mode and a
composite key (field, marker and mode concatenated with no separator),
deduplicate on the composite key, and record the slot and tuple indices.
An unknown kind raises `Cannot handle ... type quantity`. -/
def processName (st : ResolveState) (name0 : PStr) : Except ConfigError ResolveState :=
  let q := parseRequest name0
  let pfx := q.1
  let field := q.2.1
  let stat := q.2.2
  let modeResult : Except ConfigError (PStr × PStr) :=
    if stat ∈ [pstr "mean", pstr "std"] then
      .ok (pfx ++ pstr "mean_std", field ++ pfx ++ pstr "mean_std")
    else if stat ∈ [pstr "rms"] then
      .ok (pfx ++ pstr "rms", field ++ pfx ++ pstr "rms")
    else
      .error (.unsupportedStatKind stat)
  match modeResult with
  | .error e => .error e
  | .ok (stat_mode, stat_str) =>
    let st1 :=
      if stat_str ∈ st.stat_strs then
        { st with ids := st.ids ++ [st.stat_strs.indexOf stat_str] }
      else
        { st with
          ids := st.ids ++ [st.stat_strs.length]
          stat_strs := st.stat_strs ++ [stat_str]
          stat_modes := st.stat_modes ++ [stat_mode]
          stat_fields := st.stat_fields ++ [field] }
    .ok { st1 with tuple_ids := st1.tuple_ids ++ [tuple_id_map stat] }

/-- The full parsing/deduplication loop at the top of `compute_stats`. -/
def resolveRequests (str_names : List PStr) : Except ConfigError ResolveState :=
  List.foldlM processName initState str_names

/-- The external dataset statistics capability
`dataset.statistics(fields, modes, stride)`: one result tuple (modelled as
a list of values) per deduplicated `(field, mode)` pair. -/
def StatFn := List PStr → List PStr → Nat → List (List ConfigVal)

/-- `compute_stats(str_names, dataset, stride)` (lines 11-60): run the
parsing loop, invoke the dataset statistics capability once with the
deduplicated fields and modes, and read each request result out of
`values[slot][tuple_index]`.  The second component counts how many times
the dataset statistics capability was invoked during the call: the source
calls it exactly once after the loop, which is therefore reached exactly
when no request raised. -/
def compute_stats (str_names : List PStr) (dataset : StatFn) (stride : Nat) :
    Except ConfigError (List ConfigVal) × Nat :=
  match resolveRequests str_names with
  | .error e => (.error e, 0)
  | .ok st =>
    let values := dataset st.stat_fields st.stat_modes stride
    (.ok ((st.ids.zip st.tuple_ids).map fun p => (values.getD p.1 []).getD p.2 .vNone), 1)

/-- The configuration surface read by the two configurators.  A field is
`Option.none` when the config does not supply the key (so `config.get`
falls back to its default); a present value may itself be the Python value
`None` (`ConfigVal.vNone`).  `per_species_scales` and `per_species_shifts`
model the keys `PerSpeciesScaleShift_scales` / `PerSpeciesScaleShift_shifts`. -/
structure Config where
  global_rescale_scale : Option ConfigVal
  global_rescale_shift : Option ConfigVal
  dataset_statistics_stride : Nat
  trainable_global_rescale_shift : Option Bool
  trainable_global_rescale_scale : Option Bool
  per_species_scales : Option ConfigVal
  per_species_shifts : Option ConfigVal
deriving DecidableEq

/-- The model as the configurators see it: the set of output field names it
produces (`model.irreps_out`). -/
structure Model where
  irreps_out : List String
deriving DecidableEq

/-- `AtomicDataDict.FORCE_KEY`. -/
def FORCE_KEY : String := "forces"

/-- `AtomicDataDict.TOTAL_ENERGY_KEY`. -/
def TOTAL_ENERGY_KEY : String := "total_energy"

/-- `AtomicDataDict.PER_ATOM_ENERGY_KEY`. -/
def PER_ATOM_ENERGY_KEY : String := "atomic_energy"

/-- The effective global scale source of `RescaleEnergyEtc` (lines 73-78):
the configured `global_rescale_scale`, defaulting to `dataset_force_rms`
when the model produces forces and `dataset_energy_std` otherwise. -/
def effScale (model : Model) (config : Config) : ConfigVal :=
  config.global_rescale_scale.getD
    (if model.irreps_out.contains FORCE_KEY then .str (pstr "dataset_force_rms")
     else .str (pstr "dataset_energy_std"))

/-- The effective global shift source of `RescaleEnergyEtc` (line 80):
the configured `global_rescale_shift`, defaulting to `dataset_energy_mean`. -/
def effShift (config : Config) : ConfigVal :=
  config.global_rescale_shift.getD (.str (pstr "dataset_energy_mean"))

/-- The `for value in [global_scale, global_shift]` validation loop of
`RescaleEnergyEtc` (lines 84-96): collect every string source; otherwise
pass the value only when `global_scale is None` or the value is a float or
a tensor (note: the source literally tests `global_scale is None`, not
`value is None`); anything else raises `Invalid global scale ...`, whose
message interpolates `global_scale`. -/
def gatherGlobal (global_scale : ConfigVal) : List ConfigVal → Except ConfigError (List PStr)
  | [] => .ok []
  | v :: rest =>
    match v with
    | .str t => (gatherGlobal global_scale rest).map (t :: ·)
    | _ =>
      if global_scale.isNone || v.isNum || v.isTensor then gatherGlobal global_scale rest
      else .error (.invalidScaleSource global_scale)

/-- The substitution step (lines 105-108 and 204-209): a string source is
replaced by `computed_stats[str_names.index(value)]`; any other source is
kept as is. -/
def substituteVal (str_names : List PStr) (computed : List ConfigVal) (v : ConfigVal) : ConfigVal :=
  match v with
  | .str t => computed.getD (str_names.indexOf t) .vNone
  | _ => v

/-- `RESCALE_THRESHOLD = 1e-6` (line 110), written in lowest terms
(numerator 1, denominator 1000000) so that comparisons against it evaluate
by kernel reduction. -/
def RESCALE_THRESHOLD : ℚ := Rat.mk' 1 1000000 (by norm_num) (by norm_num)

/-- The keyword arguments handed to the external `RescaleOutput` wrapper
(lines 127-149). -/
structure RescaleOutput where
  scale_keys : List String
  scale_by : ConfigVal
  shift_keys : List String
  shift_by : ConfigVal
  trainable_global_rescale_shift : Bool
  trainable_global_rescale_scale : Bool
deriving DecidableEq

/-- Lines 127-149: scale is applied to whichever of total energy, per-atom
energy and force outputs the model produces; shift only to a produced total
energy output; the trainability flags default to false. -/
def buildRescaleOutput (model : Model) (config : Config) (gs gsh : ConfigVal) : RescaleOutput :=
  { scale_keys :=
      [TOTAL_ENERGY_KEY, PER_ATOM_ENERGY_KEY, FORCE_KEY].filter
        (fun k => model.irreps_out.contains k)
    scale_by := gs
    shift_keys := [TOTAL_ENERGY_KEY].filter (fun k => model.irreps_out.contains k)
    shift_by := gsh
    trainable_global_rescale_shift := config.trainable_global_rescale_shift.getD false
    trainable_global_rescale_scale := config.trainable_global_rescale_scale.getD false }

/-- Lines 105-118 of `RescaleEnergyEtc`: substitute computed statistics
back into any string source, then fail with
`Global energy scaling was very low` when the substituted scale is a float
strictly below `RESCALE_THRESHOLD`; otherwise hand the values to the
`RescaleOutput` wrapper. -/
def finishGlobal (model : Model) (config : Config) (str_names : List PStr)
    (computed_stats : List ConfigVal) (global_scale global_shift : ConfigVal) :
    Except ConfigError RescaleOutput :=
  let gs := substituteVal str_names computed_stats global_scale
  let gsh := substituteVal str_names computed_stats global_shift
  match gs with
  | .num x =>
    if x < RESCALE_THRESHOLD then .error (.degenerateScale x)
    else .ok (buildRescaleOutput model config (.num x) gsh)
  | _ => .ok (buildRescaleOutput model config gs gsh)

/-- `RescaleEnergyEtc(model, config, dataset, initialize)` (lines 63-149).
The Boolean `init` models the `initialize` flag.  The second component of
the result counts the invocations of the dataset statistics capability
during the call (the only call site is inside `compute_stats`). -/
def RescaleEnergyEtc (model : Model) (config : Config) (dataset : StatFn) (init : Bool) :
    Except ConfigError RescaleOutput × Nat :=
  let global_scale := effScale model config
  let global_shift := effShift config
  if init then
    match gatherGlobal global_scale [global_scale, global_shift] with
    | .error e => (.error e, 0)
    | .ok str_names =>
      match compute_stats str_names dataset config.dataset_statistics_stride with
      | (.error e, n) => (.error e, n)
      | (.ok computed_stats, n) =>
        (finishGlobal model config str_names computed_stats global_scale global_shift, n)
  else
    let gsh := if global_shift.isNone then global_shift else .num 0
    let gs := if global_scale.isNone then global_scale else .num 1
    (.ok (buildRescaleOutput model config gs gsh), 0)

/-- The `for value in [scales, shifts, global_scale]` validation loop of
`PerSpecieRescale` (lines 182-195): like `gatherGlobal` but a Python list
is also passed (and the same `global_scale is None` test appears instead
of `value is None`). -/
def gatherPerSpecies (global_scale : ConfigVal) : List ConfigVal → Except ConfigError (List PStr)
  | [] => .ok []
  | v :: rest =>
    match v with
    | .str t => (gatherPerSpecies global_scale rest).map (t :: ·)
    | _ =>
      if global_scale.isNone || v.isNum || v.isPyList || v.isTensor then
        gatherPerSpecies global_scale rest
      else .error (.invalidScaleSource global_scale)

/-- Python `scales /= global_scale` (line 212) for the value domain of the
model: true division is defined between floats, between a float and a
tensor (broadcast over the tensor elements), between a tensor and a float
(element-wise), and between tensors of broadcastable shapes (equal length,
or a length-one operand); every other case — a `None`, Python-list, string
or other object on the left (`TypeError`), or incompatible tensor shapes
(`RuntimeError`) — raises, modelled by `none`. -/
def divideVal : ConfigVal → ConfigVal → Option ConfigVal
  | .num a, .num g => some (.num (a / g))
  | .num a, .tensor g => some (.tensor (g.map fun b => a / b))
  | .tensor t, .num g => some (.tensor (t.map fun a => a / g))
  | .tensor t, .tensor [g] => some (.tensor (t.map fun a => a / g))
  | .tensor [a], .tensor g => some (.tensor (g.map fun b => a / b))
  | .tensor t, .tensor g => if t.length = g.length then some (.tensor (t.zipWith (fun a b => a / b) g)) else none
  | _, _ => none

/-- The per-species scale and shift values computed by `PerSpecieRescale`
for the `PerSpeciesScaleShift` module it inserts.

Modelled from the spec: the insertion capability
(`insert_from_parameters`, provided by `nequip.nn.GraphModuleMixin`, which
is not under `src/`) mutates the model in place; per the spec the values
decided by the configurator are the per-species scales and shifts the
inserted module operates with, so the embedding returns them as the
configurator result. -/
structure PerSpeciesScaleShift where
  scales : ConfigVal
  shifts : ConfigVal
deriving DecidableEq

/-- Lines 204-212 of `PerSpecieRescale`: substitute computed statistics back
into any string source, then, when the resolved global scale is not `None`,
divide the per-species scales by it with Python `/=` (which raises
`TypeError` on operand types that do not support true division). -/
def finishPerSpecies (str_names : List PStr) (computed : List ConfigVal)
    (scales shifts global_scale : ConfigVal) : Except ConfigError PerSpeciesScaleShift :=
  let scales1 := substituteVal str_names computed scales
  let shifts1 := substituteVal str_names computed shifts
  let gs := substituteVal str_names computed global_scale
  if gs.isNone then .ok ⟨scales1, shifts1⟩
  else
    match divideVal scales1 gs with
    | some scales2 => .ok ⟨scales2, shifts1⟩
    | none => .error .typeError

/-- `PerSpecieRescale(model, config, dataset, initialize)` (lines 152-238).
The Boolean `init` models the `initialize` flag.  The conflict check of
lines 175-176 raises whenever the effective `global_rescale_shift`
(default `None`) is not `None`.  As in `RescaleEnergyEtc`, the second
component counts the invocations of the dataset statistics capability. -/
def PerSpecieRescale (model : Model) (config : Config) (dataset : StatFn) (init : Bool) :
    Except ConfigError PerSpeciesScaleShift × Nat :=
  let force_training := model.irreps_out.contains FORCE_KEY
  let global_scale := config.global_rescale_scale.getD
    (if force_training then .str (pstr "dataset_force_rms") else .str (pstr "dataset_energy_std"))
  let global_shift := config.global_rescale_shift.getD .vNone
  let scales := config.per_species_scales.getD .vNone
  let shifts := config.per_species_shifts.getD .vNone
  if !global_shift.isNone then (.error .conflictingShift, 0)
  else if init then
    match gatherPerSpecies global_scale [scales, shifts, global_scale] with
    | .error e => (.error e, 0)
    | .ok str_names =>
      match compute_stats str_names dataset config.dataset_statistics_stride with
      | (.error e, n) => (.error e, n)
      | (.ok computed, n) =>
        (finishPerSpecies str_names computed scales shifts global_scale, n)
  else
    let scales1 := if scales.isNone then scales else .num 1
    let shifts1 := if shifts.isNone then shifts else .num 1
    (.ok ⟨scales1, shifts1⟩, 0)

/-! ### Concrete fixtures used by witnesses and counterexamples -/

/-- The valid statistic kinds `mean`, `std`, `rms` (section 3 of the spec). -/
def statKinds : List PStr := [pstr "mean", pstr "std", pstr "rms"]

/-- A model producing only a total energy output. -/
def modelEnergyOnly : Model := ⟨[TOTAL_ENERGY_KEY]⟩

/-- A model producing a total energy and a force output. -/
def modelWithForces : Model := ⟨[TOTAL_ENERGY_KEY, FORCE_KEY]⟩

/-- A dataset statistics stub returning no result tuples. -/
def statsEmpty : StatFn := fun _ _ _ => []

/-- A dataset statistics stub returning the single result tuple `(5, 7)`. -/
def statsMeanStd57 : StatFn := fun _ _ _ => [[.num 5, .num 7]]

/-- The rational `5e-7 = 1/2000000` (in lowest terms), a standard deviation
below the degeneracy threshold. -/
def lowStd : ℚ := Rat.mk' 1 2000000 (by norm_num) (by norm_num)

/-- A dataset statistics stub whose single `mean_std` result tuple has the
degenerate standard deviation `lowStd`. -/
def statsLowStd : StatFn := fun _ _ _ => [[.num 0, .num lowStd]]

/-- A config supplying the literal floats `2.0` and `3.0` as global scale and
shift, so that no source is a request string. -/
def cfgNumericSources : Config := ⟨some (.num 2), some (.num 3), 1, none, none, none, none⟩

/-- A config supplying only `global_rescale_shift = 1.0` and no per-species
shift. -/
def cfgGlobalShiftOnly : Config := ⟨none, some (.num 1), 1, none, none, none, none⟩

/-- A config supplying `global_rescale_scale = 2.0` and
`global_rescale_shift = None`. -/
def cfgScaleNumShiftNone : Config := ⟨some (.num 2), some .vNone, 1, none, none, none, none⟩

/-- A config supplying no keys at all: every option falls back to its
default. -/
def cfgDefaults : Config := ⟨none, none, 1, none, none, none, none⟩

/-- A config supplying the literal float `3.0` as global shift and nothing
else, so the global scale falls back to its request-string default. -/
def cfgShiftNum : Config := ⟨none, some (.num 3), 1, none, none, none, none⟩

/-- A config for the per-species variant supplying tensor scales `[2, 4]`
and tensor shifts `[0]` and leaving the global scale at its request-string
default. -/
def cfgPerSpeciesTensors : Config := ⟨none, none, 1, none, none, some (.tensor [2, 4]), some (.tensor [0])⟩

/-- A dataset statistics stub whose single result tuple is the force rms
`2.0`. -/
def statsForceRms : StatFn := fun _ _ _ => [[.num 2]]

/-! ### Helper lemmas -/

/-- The degeneracy threshold is the rational `1e-6`. -/
theorem RESCALE_THRESHOLD_eq : RESCALE_THRESHOLD = 1 / 1000000 := by
  rw [RESCALE_THRESHOLD, Rat.mk'_eq_divInt]
  norm_num [Rat.divInt_eq_div]

/-- Unfolding equation for `pySplit` on a nonempty string. -/
theorem pySplit_cons (sep c : Char) (rest : PStr) :
    pySplit sep (c :: rest) =
      match pySplit sep rest with
      | [] => [[]]
      | h :: t => if c = sep then [] :: h :: t else (c :: h) :: t := rfl

/-- Splitting never produces an empty list of pieces. -/
theorem pySplit_ne_nil (sep : Char) (l : PStr) : pySplit sep l ≠ [] := by
  induction l with
  | nil => simp [pySplit]
  | cons c rest ih =>
    cases h : pySplit sep rest with
    | nil => exact absurd h ih
    | cons hd tl =>
      rw [pySplit_cons, h]
      show ¬(if c = sep then [] :: hd :: tl else (c :: hd) :: tl) = []
      split <;> simp

/-- Splitting a string that contains the separator yields at least two
pieces. -/
theorem pySplit_length_two (xs r : PStr) : 2 ≤ (pySplit '_' (xs ++ '_' :: r)).length := by
  induction xs with
  | nil =>
    cases h : pySplit '_' r with
    | nil => exact absurd h (pySplit_ne_nil _ _)
    | cons hd tl =>
      rw [List.nil_append, pySplit_cons, h]
      simp
  | cons c xs ih =>
    cases h : pySplit '_' (xs ++ '_' :: r) with
    | nil => exact absurd h (pySplit_ne_nil _ _)
    | cons hd tl =>
      rw [h] at ih
      rw [List.cons_append, pySplit_cons, h]
      show 2 ≤ (if c = '_' then [] :: hd :: tl else (c :: hd) :: tl).length
      by_cases hc : c = '_'
      · rw [if_pos hc]
        simp
      · rw [if_neg hc]
        simp only [List.length_cons] at ih ⊢
        omega

/-- The trailing underscore-delimited token is unchanged by anything before
the last underscore: removing a block that ends at an underscore preserves
it. -/
theorem lastTok_append (xs r : PStr) : lastTok (xs ++ '_' :: r) = lastTok r := by
  induction xs with
  | nil =>
    cases h : pySplit '_' r with
    | nil => exact absurd h (pySplit_ne_nil _ _)
    | cons hd tl =>
      simp only [lastTok, List.nil_append]
      rw [pySplit_cons, h]
      show (if ('_' : Char) = '_' then [] :: hd :: tl else ('_' :: hd) :: tl).getLastD [] =
        (hd :: tl).getLastD []
      rw [if_pos rfl]
      simp [List.getLastD_cons]
  | cons c xs ih =>
    cases h : pySplit '_' (xs ++ '_' :: r) with
    | nil => exact absurd h (pySplit_ne_nil _ _)
    | cons hd tl =>
      have hlen := pySplit_length_two xs r
      rw [h] at hlen
      simp only [lastTok] at ih ⊢
      rw [h] at ih
      rw [List.cons_append, pySplit_cons, h]
      cases tl with
      | nil => simp at hlen
      | cons t2 tl2 =>
        show (if c = '_' then [] :: hd :: t2 :: tl2 else (c :: hd) :: t2 :: tl2).getLastD [] =
          (pySplit '_' r).getLastD []
        by_cases hc : c = '_'
        · rw [if_pos hc]
          simpa [List.getLastD_cons] using ih
        · rw [if_neg hc]
          simpa [List.getLastD_cons] using ih

/-- A string that starts with `tag` is `tag` followed by the rest. -/
theorem pyStartsWith_append (p : PStr) : ∀ nm : PStr, pyStartsWith p nm = true →
    p ++ nm.drop p.length = nm := by
  induction p with
  | nil => intro nm _; simp
  | cons a ps ih =>
    intro nm h
    cases nm with
    | nil => simp [pyStartsWith] at h
    | cons c cs =>
      simp only [pyStartsWith, Bool.and_eq_true, beq_iff_eq] at h
      obtain ⟨rfl, h2⟩ := h
      simpa using ih cs h2

/-- Stripping a marker that ends in an underscore from the front of a string
does not change its trailing underscore-delimited token. -/
theorem lastTok_strip (xs nm : PStr) (h : pyStartsWith (xs ++ ['_']) nm = true) :
    lastTok (nm.drop (xs ++ ['_']).length) = lastTok nm := by
  have hd := pyStartsWith_append (xs ++ ['_']) nm h
  conv_rhs => rw [← hd]
  rw [List.append_assoc, List.singleton_append]
  exact (lastTok_append xs _).symm

/-- The statistic kind extracted by `parseRequest` is exactly the trailing
underscore-delimited token of the original request string: all three
markers it may strip end at an underscore. -/
theorem parseRequest_stat (name : PStr) : (parseRequest name).2.2 = lastTok name := by
  have hds : dsPfx = pstr "dataset" ++ ['_'] := by decide
  have hsp : spPfx = pstr "per_species" ++ ['_'] := by decide
  have hpa : paPfx = pstr "per_atom" ++ ['_'] := by decide
  have strip : ∀ (xs tag : PStr), tag = xs ++ ['_'] → ∀ nm : PStr, pyStartsWith tag nm = true →
      lastTok (nm.drop tag.length) = lastTok nm := by
    rintro xs tag rfl nm h
    exact lastTok_strip xs nm h
  have stage2 : ∀ nm : PStr,
      (pySplit '_' ((if pyStartsWith spPfx nm then (spPfx, nm.drop spPfx.length)
        else if pyStartsWith paPfx nm then (paPfx, nm.drop paPfx.length)
        else (([] : PStr), nm)).2)).getLastD [] = lastTok nm := by
    intro nm
    by_cases h2 : pyStartsWith spPfx nm = true
    · rw [if_pos h2]
      exact strip _ spPfx hsp nm h2
    · rw [if_neg h2]
      by_cases h3 : pyStartsWith paPfx nm = true
      · rw [if_pos h3]
        exact strip _ paPfx hpa nm h3
      · rw [if_neg h3]
        rfl
  simp only [parseRequest]
  by_cases h1 : pyStartsWith dsPfx name = true
  · rw [if_pos h1]
    exact (stage2 _).trans (strip _ dsPfx hds name h1)
  · rw [if_neg h1]
    exact stage2 name

/-- A value is `isNone` exactly when it is the Python `None`. -/
theorem isNone_iff (v : ConfigVal) : v.isNone = true ↔ v = .vNone := by
  cases v <;> simp [ConfigVal.isNone]

/-- A value is `isNum` exactly when it is a float. -/
theorem isNum_iff (v : ConfigVal) : v.isNum = true ↔ ∃ a, v = .num a := by
  cases v <;> simp [ConfigVal.isNum]

/-- A value is `isTensor` exactly when it is a tensor. -/
theorem isTensor_iff (v : ConfigVal) : v.isTensor = true ↔ ∃ t, v = .tensor t := by
  cases v <;> simp [ConfigVal.isTensor]

/-- Resolving an empty request list: the loop accumulates nothing, and the
dataset statistics capability is nevertheless invoked (once, with empty
field and mode lists), returning an empty result list. -/
theorem compute_stats_nil (dataset : StatFn) (stride : Nat) :
    compute_stats [] dataset stride = (.ok [], 1) := rfl

/-- A request whose trailing token is not a known statistic kind makes the
loop raise `Cannot handle ... type quantity` for that token. -/
theorem processName_bad (st : ResolveState) (name : PStr) (h : lastTok name ∉ statKinds) :
    processName st name = .error (.unsupportedStatKind (lastTok name)) := by
  simp only [statKinds, List.mem_cons, List.not_mem_nil, or_false, not_or] at h
  obtain ⟨h1, h2, h3⟩ := h
  simp only [processName, parseRequest_stat]
  rw [if_neg (by simp [List.mem_cons, h1, h2]), if_neg (by simp [List.mem_cons, h3])]

/-- A request whose trailing token is a known statistic kind is accepted by
the loop. -/
theorem processName_good (st : ResolveState) (name : PStr) (h : lastTok name ∈ statKinds) :
    ∃ st2, processName st name = .ok st2 := by
  simp only [statKinds, List.mem_cons, List.not_mem_nil, or_false] at h
  simp only [processName, parseRequest_stat]
  rcases h with h | h | h
  · rw [if_pos (by rw [h]; decide)]
    exact ⟨_, rfl⟩
  · rw [if_pos (by rw [h]; decide)]
    exact ⟨_, rfl⟩
  · rw [if_neg (by rw [h]; decide), if_pos (by rw [h]; decide)]
    exact ⟨_, rfl⟩

/-- If some request in the list has an unknown trailing token, the loop
fails with `unsupportedStatKind`, whatever state it starts from. -/
theorem foldlM_bad (names : List PStr) : ∀ st : ResolveState,
    (∃ n ∈ names, lastTok n ∉ statKinds) →
    ∃ t, List.foldlM processName st names = .error (.unsupportedStatKind t) := by
  induction names with
  | nil =>
    rintro st ⟨n, hn, _⟩
    exact absurd hn (List.not_mem_nil n)
  | cons a rest ih =>
    rintro st ⟨n, hn, hbad⟩
    rw [List.foldlM_cons]
    by_cases ha : lastTok a ∈ statKinds
    · obtain ⟨st2, h2⟩ := processName_good st a ha
      rw [h2]
      have hnr : n ∈ rest := by
        rcases List.mem_cons.mp hn with rfl | hr
        · exact absurd ha hbad
        · exact hr
      exact ih st2 ⟨n, hnr, hbad⟩
    · rw [processName_bad st a ha]
      exact ⟨lastTok a, rfl⟩

/-- Every error of the parsing loop is an `unsupportedStatKind`. -/
theorem processName_error_shape (st : ResolveState) (name : PStr) (e : ConfigError)
    (h : processName st name = .error e) : ∃ t, e = .unsupportedStatKind t := by
  by_cases h1 : (parseRequest name).2.2 ∈ [pstr "mean", pstr "std"]
  · simp only [processName] at h
    rw [if_pos h1] at h
    simp at h
  · by_cases h2 : (parseRequest name).2.2 ∈ [pstr "rms"]
    · simp only [processName] at h
      rw [if_neg h1, if_pos h2] at h
      simp at h
    · simp only [processName] at h
      rw [if_neg h1, if_neg h2] at h
      have h3 : (Except.error (ConfigError.unsupportedStatKind (parseRequest name).2.2) :
          Except ConfigError ResolveState) = .error e := h
      exact ⟨_, ((Except.error.injEq _ _).mp h3).symm⟩

/-- Every error of `resolveRequests` is an `unsupportedStatKind`. -/
theorem resolveRequests_error_shape (names : List PStr) : ∀ (st : ResolveState) (e : ConfigError),
    List.foldlM processName st names = .error e → ∃ t, e = .unsupportedStatKind t := by
  induction names with
  | nil =>
    intro st e h
    have h2 : (Except.ok st : Except ConfigError ResolveState) = .error e := h
    exact Except.noConfusion h2
  | cons a rest ih =>
    intro st e h
    rw [List.foldlM_cons] at h
    cases hp : processName st a with
    | error e2 =>
      rw [hp] at h
      have h2 : (Except.error e2 : Except ConfigError ResolveState) = .error e := h
      obtain rfl := (Except.error.injEq _ _ |>.mp h2)
      exact processName_error_shape st a e2 hp
    | ok st2 =>
      rw [hp] at h
      exact ih st2 e h

/-- Every failing `compute_stats` call fails with `unsupportedStatKind` and
never touches the dataset. -/
theorem compute_stats_error_shape (names : List PStr) (dataset : StatFn) (stride : Nat)
    (e : ConfigError) (n : Nat) (h : compute_stats names dataset stride = (.error e, n)) :
    (∃ t, e = .unsupportedStatKind t) ∧ n = 0 := by
  unfold compute_stats at h
  cases hr : resolveRequests names with
  | error e2 =>
    rw [hr] at h
    obtain ⟨h1, h2⟩ := Prod.mk.injEq .. |>.mp h
    obtain rfl := (Except.error.injEq _ _ |>.mp h1)
    exact ⟨resolveRequests_error_shape names initState e2 hr, h2.symm⟩
  | ok st =>
    rw [hr] at h
    simp at h

/-- Every error of the per-species validation loop is an
`invalidScaleSource` carrying the effective global scale. -/
theorem gatherPerSpecies_error_shape (gs : ConfigVal) (l : List ConfigVal) (e : ConfigError)
    (h : gatherPerSpecies gs l = .error e) : e = .invalidScaleSource gs := by
  induction l with
  | nil => simp [gatherPerSpecies] at h
  | cons v rest ih =>
    cases v with
    | str t =>
      simp only [gatherPerSpecies] at h
      cases hr : gatherPerSpecies gs rest with
      | error e2 =>
        rw [hr] at h
        have h2 : (Except.error e2 : Except ConfigError (List PStr)) = .error e := h
        obtain rfl := (Except.error.injEq _ _ |>.mp h2)
        exact ih hr
      | ok l2 =>
        rw [hr] at h
        simp [Except.map] at h
    | vNone =>
      simp only [gatherPerSpecies] at h
      split at h
      · exact ih h
      · exact ((Except.error.injEq _ _).mp h).symm
    | num x =>
      simp only [gatherPerSpecies] at h
      split at h
      · exact ih h
      · exact ((Except.error.injEq _ _).mp h).symm
    | tensor t =>
      simp only [gatherPerSpecies] at h
      split at h
      · exact ih h
      · exact ((Except.error.injEq _ _).mp h).symm
    | pyList t =>
      simp only [gatherPerSpecies] at h
      split at h
      · exact ih h
      · exact ((Except.error.injEq _ _).mp h).symm
    | other =>
      simp only [gatherPerSpecies] at h
      split at h
      · exact ih h
      · exact ((Except.error.injEq _ _).mp h).symm

/-- A float or tensor source passes the global validation loop without
contributing a request string. -/
theorem gatherGlobal_pass (gs v : ConfigVal) (rest : List ConfigVal)
    (hv : v.isNum = true ∨ v.isTensor = true) :
    gatherGlobal gs (v :: rest) = gatherGlobal gs rest := by
  rcases hv with h | h
  · obtain ⟨a, rfl⟩ := (isNum_iff _).mp h
    simp [gatherGlobal, ConfigVal.isNum]
  · obtain ⟨t, rfl⟩ := (isTensor_iff _).mp h
    simp [gatherGlobal, ConfigVal.isTensor]

/-- Unfolding equation for `PerSpecieRescale` at `initialize=true`: its
effective global scale source (lines 167-170) is the same expression as the
global variant's `effScale`, and after the conflict check the call is the
validation loop, the statistics resolution and the substitution/division
tail. -/
theorem PerSpecieRescale_init_eq (model : Model) (config : Config) (dataset : StatFn) :
    PerSpecieRescale model config dataset true =
      if !(config.global_rescale_shift.getD .vNone).isNone then (.error .conflictingShift, 0)
      else
        match gatherPerSpecies (effScale model config)
            [config.per_species_scales.getD .vNone, config.per_species_shifts.getD .vNone,
              effScale model config] with
        | .error e => (.error e, 0)
        | .ok str_names =>
          match compute_stats str_names dataset config.dataset_statistics_stride with
          | (.error e, n) => (.error e, n)
          | (.ok computed, n) =>
            (finishPerSpecies str_names computed (config.per_species_scales.getD .vNone)
              (config.per_species_shifts.getD .vNone) (effScale model config), n) := rfl

/-- The substitution/division tail of the per-species configurator never
produces the shift-conflict error. -/
theorem finishPerSpecies_no_conflict (str_names : List PStr) (computed : List ConfigVal)
    (scales shifts global_scale : ConfigVal) :
    finishPerSpecies str_names computed scales shifts global_scale ≠ .error .conflictingShift := by
  simp only [finishPerSpecies]
  split
  · simp
  · split <;> simp

/-- A `None` head value fails the per-species validation loop whenever the
effective global scale is not `None` (the loop tests `global_scale is None`
rather than `value is None`). -/
theorem gatherPerSpecies_vNone_fail (gs : ConfigVal) (rest : List ConfigVal)
    (h : gs.isNone = false) :
    gatherPerSpecies gs (.vNone :: rest) = .error (.invalidScaleSource gs) := by
  show (if gs.isNone || ConfigVal.vNone.isNum || ConfigVal.vNone.isPyList ||
      ConfigVal.vNone.isTensor then gatherPerSpecies gs rest
    else .error (.invalidScaleSource gs)) = _
  rw [h]
  rfl

/-! ### Claim theorems -/

/-- C9: `per_species_energy_mean` and `energy_mean` are assigned distinct
computation slots (slot indices 0 and 1, with two distinct composite keys)
even though both parse to the field name `energy`. -/
theorem c9_granularity_isolation :
    resolveRequests [pstr "per_species_energy_mean", pstr "energy_mean"] =
      .ok { stat_modes := [pstr "per_species_mean_std", pstr "mean_std"],
            stat_fields := [pstr "energy", pstr "energy"],
            stat_strs := [pstr "energyper_species_mean_std", pstr "energymean_std"],
            ids := [0, 1], tuple_ids := [0, 0] } := by decide

/-- C10: the composite key concatenates field, granularity marker and mode
with no separator, so `per_species_x_mean` (field `x`, per-species) and
`xper_species__mean` (field `xper_species_`, global) collide on the key
`xper_species_mean_std`: the resolver maps both to slot 0 and the second
request silently reuses the first request's computed statistic, for every
dataset statistics function. -/
theorem c10_composite_key_collision :
    parseRequest (pstr "per_species_x_mean") = (pstr "per_species_", pstr "x", pstr "mean") ∧
    parseRequest (pstr "xper_species__mean") = (pstr "", pstr "xper_species_", pstr "mean") ∧
    resolveRequests [pstr "per_species_x_mean", pstr "xper_species__mean"] =
      .ok { stat_modes := [pstr "per_species_mean_std"], stat_fields := [pstr "x"],
            stat_strs := [pstr "xper_species_mean_std"], ids := [0, 0], tuple_ids := [0, 0] } ∧
    ∀ (dataset : StatFn) (stride : Nat),
      compute_stats [pstr "per_species_x_mean", pstr "xper_species__mean"] dataset stride =
        (.ok [((dataset [pstr "x"] [pstr "per_species_mean_std"] stride).getD 0 []).getD 0 .vNone,
              ((dataset [pstr "x"] [pstr "per_species_mean_std"] stride).getD 0 []).getD 0 .vNone],
         1) :=
  ⟨by decide, by decide, by decide, fun _ _ => rfl⟩

/-- C4: resolving `energy_mean` and `energy_std` produces exactly one
computation slot (field `energy`, mode `mean_std`), passed in a single
dataset statistics invocation, and the two returned values are indices 0
and 1 of that slot's single result tuple. -/
theorem c4_dedup_mean_std (dataset : StatFn) (stride : Nat) (m sd : ConfigVal)
    (h : dataset [pstr "energy"] [pstr "mean_std"] stride = [[m, sd]]) :
    resolveRequests [pstr "energy_mean", pstr "energy_std"] =
      .ok { stat_modes := [pstr "mean_std"], stat_fields := [pstr "energy"],
            stat_strs := [pstr "energymean_std"], ids := [0, 0], tuple_ids := [0, 1] } ∧
    compute_stats [pstr "energy_mean", pstr "energy_std"] dataset stride = (.ok [m, sd], 1) := by
  refine ⟨by decide, ?_⟩
  have key : compute_stats [pstr "energy_mean", pstr "energy_std"] dataset stride =
      (.ok [((dataset [pstr "energy"] [pstr "mean_std"] stride).getD 0 []).getD 0 .vNone,
            ((dataset [pstr "energy"] [pstr "mean_std"] stride).getD 0 []).getD 1 .vNone], 1) := rfl
  rw [key, h]
  exact rfl

/-- Witness for C4 at the concrete stub returning the tuple `(5, 7)`. -/
theorem c4_dedup_mean_std_witness :
    compute_stats [pstr "energy_mean", pstr "energy_std"] statsMeanStd57 1 =
      (.ok [.num 5, .num 7], 1) :=
  (c4_dedup_mean_std statsMeanStd57 1 (.num 5) (.num 7) rfl).2

/-- C3 (failing input): with `initialize=true`, `global_rescale_scale=2.0`
and `global_rescale_shift=None`, the global configurator raises
`Invalid global scale ...` and never touches the dataset — although both
sources are valid (a float and `None`) — because the validation loop tests
`global_scale is None` where `value is None` was intended. -/
theorem c3_valid_none_shift_rejected :
    RescaleEnergyEtc modelEnergyOnly cfgScaleNumShiftNone statsEmpty true =
      (.error (.invalidScaleSource (.num 2)), 0) := by decide

/-- C1 (counterexample): with `initialize=true` and both sources configured
as literal floats, no source is a request string — the request list handed
to the resolver is empty — yet the dataset statistics capability is still
invoked (the invocation count of the call is not zero). -/
theorem c1_empty_requests_dataset_touched :
    gatherGlobal (effScale modelEnergyOnly cfgNumericSources)
      [effScale modelEnergyOnly cfgNumericSources, effShift cfgNumericSources] = .ok [] ∧
    (RescaleEnergyEtc modelEnergyOnly cfgNumericSources statsEmpty true).2 ≠ 0 := by decide

/-- C1 (amended): with `initialize=true` and every source a literal float
or tensor, the dataset statistics capability is invoked exactly once, and
resolving the empty request list returns an empty result list (that single
invocation receives empty field and mode lists and contributes nothing). -/
theorem c1_amended_empty_requests (model : Model) (config : Config) (dataset : StatFn)
    (x y : ConfigVal) (hx : config.global_rescale_scale = some x)
    (hy : config.global_rescale_shift = some y)
    (hvx : x.isNum = true ∨ x.isTensor = true) (hvy : y.isNum = true ∨ y.isTensor = true) :
    (RescaleEnergyEtc model config dataset true).2 = 1 ∧
    compute_stats [] dataset config.dataset_statistics_stride = (.ok [], 1) := by
  refine ⟨?_, compute_stats_nil _ _⟩
  have hes : effScale model config = x := by simp [effScale, hx]
  have hesh : effShift config = y := by simp [effShift, hy]
  have hgather : gatherGlobal x [x, y] = .ok [] := by
    rw [gatherGlobal_pass x x [y] hvx, gatherGlobal_pass x y [] hvy]
    rfl
  simp only [RescaleEnergyEtc, hes, hesh]
  rw [hgather]
  simp only [compute_stats_nil]
  rfl

/-- Witness for the amended C1 at the all-float config. -/
theorem c1_amended_empty_requests_witness :
    (RescaleEnergyEtc modelEnergyOnly cfgNumericSources statsEmpty true).2 = 1 ∧
    compute_stats [] statsEmpty 1 = (.ok [], 1) :=
  c1_amended_empty_requests modelEnergyOnly cfgNumericSources statsEmpty
    (.num 2) (.num 3) rfl rfl (Or.inl rfl) (Or.inl rfl)

/-- C7: with `initialize=false`, the global configurator performs no dataset
invocation, collapses every non-None scale source to the neutral `1.0` and
every non-None shift source to the neutral `0.0`, and keeps `None` sources
as `None`. -/
theorem c7_skip_stats (model : Model) (config : Config) (dataset : StatFn) :
    (RescaleEnergyEtc model config dataset false).2 = 0 ∧
    ∃ out, (RescaleEnergyEtc model config dataset false).1 = .ok out ∧
      out.scale_by = (if (effScale model config).isNone then ConfigVal.vNone else .num 1) ∧
      out.shift_by = (if (effShift config).isNone then ConfigVal.vNone else .num 0) := by
  refine ⟨rfl, buildRescaleOutput model config
      (if (effScale model config).isNone then effScale model config else .num 1)
      (if (effShift config).isNone then effShift config else .num 0), rfl, ?_, ?_⟩
  · show (if (effScale model config).isNone then effScale model config else ConfigVal.num 1) = _
    by_cases h : (effScale model config).isNone = true
    · rw [if_pos h, if_pos h]
      exact (isNone_iff _).mp h
    · rw [if_neg h, if_neg h]
  · show (if (effShift config).isNone then effShift config else ConfigVal.num 0) = _
    by_cases h : (effShift config).isNone = true
    · rw [if_pos h, if_pos h]
      exact (isNone_iff _).mp h
    · rw [if_neg h, if_neg h]

/-- C6: with `initialize=true`, once the sources validate, the statistics
resolve and the substituted global scale is the float `x`, the configurator
fails with `Global energy scaling was very low` carrying `x` exactly when
`x` is strictly below the threshold `1e-6`. -/
theorem c6_degenerate_scale (model : Model) (config : Config) (dataset : StatFn)
    (str_names : List PStr) (computed : List ConfigVal) (n : Nat) (x : ℚ)
    (hg : gatherGlobal (effScale model config) [effScale model config, effShift config] =
      .ok str_names)
    (hc : compute_stats str_names dataset config.dataset_statistics_stride = (.ok computed, n))
    (hx : substituteVal str_names computed (effScale model config) = .num x) :
    ((RescaleEnergyEtc model config dataset true).1 = .error (.degenerateScale x) ↔
      x < RESCALE_THRESHOLD) := by
  have hstep : RescaleEnergyEtc model config dataset true =
      (finishGlobal model config str_names computed (effScale model config) (effShift config),
        n) := by
    simp only [RescaleEnergyEtc, hg, hc]
    exact if_pos trivial
  rw [hstep]
  simp only [finishGlobal, hx]
  by_cases h : x < RESCALE_THRESHOLD
  · simp [h]
  · simp [h]

/-- Witness for C6: a dataset whose energy standard deviation is `5e-7`
trips the degeneracy check. -/
theorem c6_degenerate_scale_witness :
    (RescaleEnergyEtc modelEnergyOnly cfgShiftNum statsLowStd true).1 =
      .error (.degenerateScale lowStd) :=
  (c6_degenerate_scale modelEnergyOnly cfgShiftNum statsLowStd
    [pstr "dataset_energy_std"] [.num lowStd] 1 lowStd (by decide) (by decide)
    (by decide)).mpr (by decide)

/-- C2 (counterexample): configuring only `global_rescale_shift = 1.0` and
no per-species shift still raises the shift-conflict error — the source
raises whenever the global shift is non-None, not only when both shifts are
configured. -/
theorem c2_conflict_without_per_species_shift :
    PerSpecieRescale modelEnergyOnly cfgGlobalShiftOnly statsEmpty true =
      (.error .conflictingShift, 0) := by decide

/-- When the effective global shift is `None`, the per-species configurator
can never fail with the shift-conflict error. -/
theorem perSpecies_no_conflict_of_shift_none (model : Model) (config : Config)
    (dataset : StatFn) (init : Bool)
    (hsh : (config.global_rescale_shift.getD .vNone).isNone = true) :
    (PerSpecieRescale model config dataset init).1 ≠ .error .conflictingShift := by
  simp only [PerSpecieRescale, hsh, Bool.not_true]
  rw [if_neg (by simp)]
  by_cases hi : init = true
  · rw [if_pos hi]
    split
    · rename_i e heq
      obtain rfl := gatherPerSpecies_error_shape _ _ _ heq
      simp
    · rename_i str_names heq
      split
      · rename_i e n heq2
        obtain ⟨⟨t2, rfl⟩, _⟩ := compute_stats_error_shape _ _ _ _ _ heq2
        simp
      · rename_i computed n heq2
        exact finishPerSpecies_no_conflict _ _ _ _ _
  · rw [if_neg hi]
    simp

/-- C2 (amended): the per-species configurator fails with the
shift-conflict error exactly when a non-None global shift is configured —
independently of whether a per-species shift is configured — and it does so
for both values of `initialize`, before any statistic computation (zero
dataset invocations). -/
theorem c2_amended_conflict_iff_global_shift (model : Model) (config : Config)
    (dataset : StatFn) (init : Bool) :
    ((PerSpecieRescale model config dataset init).1 = .error .conflictingShift ↔
      (config.global_rescale_shift.getD .vNone).isNone = false) ∧
    ((config.global_rescale_shift.getD .vNone).isNone = false →
      PerSpecieRescale model config dataset init = (.error .conflictingShift, 0)) := by
  by_cases hsh : (config.global_rescale_shift.getD .vNone).isNone = true
  · have hneq := perSpecies_no_conflict_of_shift_none model config dataset init hsh
    constructor
    · constructor
      · intro h
        exact absurd h hneq
      · intro h
        rw [hsh] at h
        exact absurd h (by simp)
    · intro h
      rw [hsh] at h
      exact absurd h (by simp)
  · have hsh2 : (config.global_rescale_shift.getD .vNone).isNone = false := by
      cases hb : (config.global_rescale_shift.getD .vNone).isNone
      · rfl
      · exact absurd hb hsh
    have hres : PerSpecieRescale model config dataset init = (.error .conflictingShift, 0) := by
      simp only [PerSpecieRescale, hsh2, Bool.not_false]
      rfl
    exact ⟨⟨fun _ => hsh2, fun _ => by rw [hres]⟩, fun _ => hres⟩

/-- Witness for the amended C2: a global shift with no per-species shift,
under `initialize=false`, conflicts with zero dataset invocations. -/
theorem c2_amended_conflict_witness :
    PerSpecieRescale modelEnergyOnly cfgGlobalShiftOnly statsEmpty false =
      (.error .conflictingShift, 0) :=
  (c2_amended_conflict_iff_global_shift modelEnergyOnly cfgGlobalShiftOnly statsEmpty
    false).2 (by decide)

/-- C8 (counterexample): with the default configuration — no per-species
scales or shifts configured, so both are `None`, and the global scale source
defaulting to the request string `dataset_force_rms` — `initialize=true`
fails with `Invalid global scale ...` during validation, before the
division step is ever reached; the claim that the division succeeds for the
default configuration is false. -/
theorem c8_default_scales_fails_validation :
    PerSpecieRescale modelWithForces cfgDefaults statsEmpty true =
      (.error (.invalidScaleSource (.str (pstr "dataset_force_rms"))), 0) := by decide

/-- C8 (amended): in the per-species variant with `initialize=true`, for
every run in which the effective global shift is `None`, validation
succeeds and the statistics resolve: if the resolved (post-substitution)
per-species scales form a tensor `t` and the resolved global scale is
present as a number `g` — whether configured literally or resolved from a
dataset request string — the per-species scales used for the inserted
module equal `t` divided element-wise by `g`, the resolved shifts passing
through unchanged; and with the default configuration (per-species scales
and shifts unset, hence `None`) and a non-None effective global scale
source, configuration instead fails with `Invalid global scale ...` during
validation, before the division is reached. -/
theorem c8_amended_division (model : Model) (config : Config) (dataset : StatFn) :
    (∀ (str_names : List PStr) (computed : List ConfigVal) (n : Nat) (t : List ℚ) (g : ℚ),
      (config.global_rescale_shift.getD .vNone).isNone = true →
      gatherPerSpecies (effScale model config)
        [config.per_species_scales.getD .vNone, config.per_species_shifts.getD .vNone,
          effScale model config] = .ok str_names →
      compute_stats str_names dataset config.dataset_statistics_stride = (.ok computed, n) →
      substituteVal str_names computed (config.per_species_scales.getD .vNone) = .tensor t →
      substituteVal str_names computed (effScale model config) = .num g →
      PerSpecieRescale model config dataset true =
        (.ok ⟨.tensor (t.map fun a => a / g),
          substituteVal str_names computed (config.per_species_shifts.getD .vNone)⟩, n)) ∧
    (config.per_species_scales = none → config.per_species_shifts = none →
      (config.global_rescale_shift.getD .vNone).isNone = true →
      (effScale model config).isNone = false →
      PerSpecieRescale model config dataset true =
        (.error (.invalidScaleSource (effScale model config)), 0)) := by
  constructor
  · intro str_names computed n t g hsh hg hc hscales hgs
    rw [PerSpecieRescale_init_eq, hsh]
    rw [if_neg (by simp)]
    simp only [hg, hc]
    simp only [finishPerSpecies, hscales, hgs]
    simp [ConfigVal.isNone, divideVal]
  · intro hscn hshn hsh hgs
    rw [PerSpecieRescale_init_eq, hsh]
    rw [if_neg (by simp)]
    simp only [hscn, hshn, Option.getD_none]
    rw [gatherPerSpecies_vNone_fail _ _ hgs]

/-- Witness for the amended C8: the default string global scale source
`dataset_force_rms` resolves to `2.0` through a concrete stub and divides
the configured tensor scales `[2, 4]` element-wise (yielding `[1, 2]`),
with the tensor shifts passed through. -/
theorem c8_amended_division_witness :
    PerSpecieRescale modelWithForces cfgPerSpeciesTensors statsForceRms true =
      (.ok ⟨.tensor ([2, 4].map fun a => a / 2), .tensor [0]⟩, 1) :=
  (c8_amended_division modelWithForces cfgPerSpeciesTensors statsForceRms).1
    [pstr "dataset_force_rms"] [.num 2] 1 [2, 4] 2 (by decide) (by decide) (by decide)
    (by decide) (by decide)

/-- C5: any request list containing a string whose trailing
underscore-delimited token is not `mean`, `std` or `rms` makes
`compute_stats` fail with the unsupported-kind error, with zero invocations
of the dataset statistics capability. -/
theorem c5_unknown_kind_fails_fast (names : List PStr) (dataset : StatFn) (stride : Nat)
    (h : ∃ n ∈ names, lastTok n ∉ statKinds) :
    ∃ t, compute_stats names dataset stride = (.error (.unsupportedStatKind t), 0) := by
  obtain ⟨t, ht⟩ := foldlM_bad names initState h
  refine ⟨t, ?_⟩
  have hr : resolveRequests names = .error (.unsupportedStatKind t) := ht
  simp only [compute_stats, hr]

/-- Witness for C5 at the single bad request `energy_foo`, with a dataset
stub that is never consulted. -/
theorem c5_unknown_kind_fails_fast_witness :
    ∃ t, compute_stats [pstr "energy_foo"] statsEmpty 1 =
      (.error (.unsupportedStatKind t), 0) :=
  c5_unknown_kind_fails_fast [pstr "energy_foo"] statsEmpty 1
    ⟨pstr "energy_foo", by decide, by decide⟩

end Scaling
